import Mathlib

/-!
# lianahq/rest-client: the signed REST client (`golang/restclient.go`)

A shallow embedding of the Go package `restclient`.

* Go strings are Lean `String`s, so the strings of the model are the Go strings
  that hold valid UTF-8; `[]byte(s)` is the UTF-8 byte sequence of `s`, a
  `List Nat` of values below 256.
* Go `int` values are `Int`; `%d` is the decimal rendering.
* `crypto/md5`, `crypto/sha256`, `crypto/hmac` and `encoding/hex` of the Go
  standard library are embedded as the algorithms they implement (RFC 1321,
  FIPS 180-4, RFC 2104), over `Nat` words reduced modulo `2 ^ 32`.
* The collaborators with an effect or of a large library (JSON encoding and
  decoding, the clock, the URL parser, the HTTP transport) are the fields of an
  environment `Env`; every theorem holds for every environment.
-/

namespace RestClient

/-! ## Bytes and 32-bit words -/

/-- The bytes of a Go string: `[]byte(s)`. -/
def stringBytes (s : String) : List Nat :=
  s.data.flatMap fun c => (String.utf8EncodeChar c).map UInt8.toNat

/-- Reduction of a natural number to a 32-bit word. -/
def word32 (n : Nat) : Nat := n % 4294967296

/-- Bitwise complement of a 32-bit word. -/
def not32 (x : Nat) : Nat := 4294967295 - word32 x

/-- Rotation to the left of a 32-bit word: `bits.RotateLeft32`. -/
def rotl32 (x k : Nat) : Nat := word32 (x <<< k) ||| (word32 x >>> (32 - k))

/-- Rotation to the right of a 32-bit word. -/
def rotr32 (x k : Nat) : Nat := (word32 x >>> k) ||| word32 (x <<< (32 - k))

/-- The four bytes of a 32-bit word, least significant first. -/
def leBytes32 (x : Nat) : List Nat :=
  [x % 256, x / 256 % 256, x / 65536 % 256, x / 16777216 % 256]

/-- The four bytes of a 32-bit word, most significant first. -/
def beBytes32 (x : Nat) : List Nat :=
  [x / 16777216 % 256, x / 65536 % 256, x / 256 % 256, x % 256]

/-- The eight bytes of a 64-bit length, least significant first. -/
def leBytes64 (x : Nat) : List Nat :=
  leBytes32 (x % 4294967296) ++ leBytes32 (x / 4294967296 % 4294967296)

/-- The eight bytes of a 64-bit length, most significant first. -/
def beBytes64 (x : Nat) : List Nat :=
  beBytes32 (x / 4294967296 % 4294967296) ++ beBytes32 (x % 4294967296)

/-- Little-endian 32-bit words of a byte sequence (four bytes a word). -/
def leWords : List Nat → List Nat
  | a :: b :: c :: d :: rest => (a + 256 * b + 65536 * c + 16777216 * d) :: leWords rest
  | _ => []

/-- Big-endian 32-bit words of a byte sequence (four bytes a word). -/
def beWords : List Nat → List Nat
  | a :: b :: c :: d :: rest => (16777216 * a + 65536 * b + 256 * c + d) :: beWords rest
  | _ => []

/-- The number of zero bytes of the padding: after the `0x80` byte the length
is brought to 56 modulo 64. -/
def padZeros (len : Nat) : Nat := (119 - len % 64) % 64

/-- Run `step` over the successive 64-byte blocks of `bytes`, `n` of them. -/
def foldBlocks {σ : Type} (step : σ → List Nat → σ) : Nat → σ → List Nat → σ
  | 0, st, _ => st
  | n + 1, st, bytes => foldBlocks step n (step st (bytes.take 64)) (bytes.drop 64)

/-! ## MD5 (`crypto/md5`) -/

/-- The per-round additive constants of MD5. -/
def md5K : List Nat :=
  [0xd76aa478, 0xe8c7b756, 0x242070db, 0xc1bdceee, 0xf57c0faf, 0x4787c62a, 0xa8304613, 0xfd469501,
   0x698098d8, 0x8b44f7af, 0xffff5bb1, 0x895cd7be, 0x6b901122, 0xfd987193, 0xa679438e, 0x49b40821,
   0xf61e2562, 0xc040b340, 0x265e5a51, 0xe9b6c7aa, 0xd62f105d, 0x02441453, 0xd8a1e681, 0xe7d3fbc8,
   0x21e1cde6, 0xc33707d6, 0xf4d50d87, 0x455a14ed, 0xa9e3e905, 0xfcefa3f8, 0x676f02d9, 0x8d2a4c8a,
   0xfffa3942, 0x8771f681, 0x6d9d6122, 0xfde5380c, 0xa4beea44, 0x4bdecfa9, 0xf6bb4b60, 0xbebfbc70,
   0x289b7ec6, 0xeaa127fa, 0xd4ef3085, 0x04881d05, 0xd9d4d039, 0xe6db99e5, 0x1fa27cf8, 0xc4ac5665,
   0xf4292244, 0x432aff97, 0xab9423a7, 0xfc93a039, 0x655b59c3, 0x8f0ccc92, 0xffeff47d, 0x85845dd1,
   0x6fa87e4f, 0xfe2ce6e0, 0xa3014314, 0x4e0811a1, 0xf7537e82, 0xbd3af235, 0x2ad7d2bb, 0xeb86d391]

/-- The per-round rotation amounts of MD5. -/
def md5S : List Nat :=
  [7, 12, 17, 22, 7, 12, 17, 22, 7, 12, 17, 22, 7, 12, 17, 22,
   5, 9, 14, 20, 5, 9, 14, 20, 5, 9, 14, 20, 5, 9, 14, 20,
   4, 11, 16, 23, 4, 11, 16, 23, 4, 11, 16, 23, 4, 11, 16, 23,
   6, 10, 15, 21, 6, 10, 15, 21, 6, 10, 15, 21, 6, 10, 15, 21]

/-- The chaining state of MD5. -/
structure MD5State where
  a : Nat
  b : Nat
  c : Nat
  d : Nat

/-- The initial chaining state of MD5. -/
def md5Init : MD5State := ⟨0x67452301, 0xefcdab89, 0x98badcfe, 0x10325476⟩

/-- The round function of MD5 and the index of the message word of round `i`. -/
def md5Mix (i b c d : Nat) : Nat × Nat :=
  if i < 16 then ((b &&& c) ||| (not32 b &&& d), i)
  else if i < 32 then ((d &&& b) ||| (not32 d &&& c), (5 * i + 1) % 16)
  else if i < 48 then (b ^^^ c ^^^ d, (3 * i + 5) % 16)
  else (c ^^^ (b ||| not32 d), (7 * i) % 16)

/-- One of the 64 rounds of MD5 on the message words `m`. -/
def md5Round (m : List Nat) (st : MD5State) (i : Nat) : MD5State :=
  let fg := md5Mix i st.b st.c st.d
  let f := word32 (fg.1 + st.a + md5K.getD i 0 + m.getD fg.2 0)
  ⟨st.d, word32 (st.b + rotl32 f (md5S.getD i 0)), st.b, st.c⟩

/-- The MD5 compression of one 64-byte block. -/
def md5Block (st : MD5State) (block : List Nat) : MD5State :=
  let r := (List.range 64).foldl (md5Round (leWords block)) st
  ⟨word32 (st.a + r.a), word32 (st.b + r.b), word32 (st.c + r.c), word32 (st.d + r.d)⟩

/-- The padded message of MD5: a `0x80` byte, zeros, the bit length on 64 bits. -/
def md5Pad (msg : List Nat) : List Nat :=
  msg ++ 0x80 :: List.replicate (padZeros msg.length) 0 ++ leBytes64 (8 * msg.length % 2 ^ 64)

/-- The 16-byte MD5 digest: `h := md5.New(); h.Write(msg); h.Sum(nil)`. -/
def md5Sum (msg : List Nat) : List Nat :=
  let p := md5Pad msg
  let r := foldBlocks md5Block (p.length / 64) md5Init p
  leBytes32 r.a ++ leBytes32 r.b ++ leBytes32 r.c ++ leBytes32 r.d

/-! ## SHA-256 (`crypto/sha256`) and HMAC (`crypto/hmac`) -/

/-- The round constants of SHA-256. -/
def sha256K : List Nat :=
  [0x428a2f98, 0x71374491, 0xb5c0fbcf, 0xe9b5dba5, 0x3956c25b, 0x59f111f1, 0x923f82a4, 0xab1c5ed5,
   0xd807aa98, 0x12835b01, 0x243185be, 0x550c7dc3, 0x72be5d74, 0x80deb1fe, 0x9bdc06a7, 0xc19bf174,
   0xe49b69c1, 0xefbe4786, 0x0fc19dc6, 0x240ca1cc, 0x2de92c6f, 0x4a7484aa, 0x5cb0a9dc, 0x76f988da,
   0x983e5152, 0xa831c66d, 0xb00327c8, 0xbf597fc7, 0xc6e00bf3, 0xd5a79147, 0x06ca6351, 0x14292967,
   0x27b70a85, 0x2e1b2138, 0x4d2c6dfc, 0x53380d13, 0x650a7354, 0x766a0abb, 0x81c2c92e, 0x92722c85,
   0xa2bfe8a1, 0xa81a664b, 0xc24b8b70, 0xc76c51a3, 0xd192e819, 0xd6990624, 0xf40e3585, 0x106aa070,
   0x19a4c116, 0x1e376c08, 0x2748774c, 0x34b0bcb5, 0x391c0cb3, 0x4ed8aa4a, 0x5b9cca4f, 0x682e6ff3,
   0x748f82ee, 0x78a5636f, 0x84c87814, 0x8cc70208, 0x90befffa, 0xa4506ceb, 0xbef9a3f7, 0xc67178f2]

/-- The initial chaining state of SHA-256. -/
def sha256Init : List Nat :=
  [0x6a09e667, 0xbb67ae85, 0x3c6ef372, 0xa54ff53a, 0x510e527f, 0x9b05688c, 0x1f83d9ab, 0x5be0cd19]

/-- Extension of the message schedule of SHA-256 by the word of index `i`. -/
def sha256Extend (w : List Nat) (i : Nat) : List Nat :=
  let w15 := w.getD (i - 15) 0
  let w2 := w.getD (i - 2) 0
  let s0 := rotr32 w15 7 ^^^ rotr32 w15 18 ^^^ (w15 >>> 3)
  let s1 := rotr32 w2 17 ^^^ rotr32 w2 19 ^^^ (w2 >>> 10)
  w ++ [word32 (w.getD (i - 16) 0 + s0 + w.getD (i - 7) 0 + s1)]

/-- The 64 words of the message schedule of one block. -/
def sha256Schedule (block : List Nat) : List Nat :=
  ((List.range 48).map (· + 16)).foldl sha256Extend (beWords block)

/-- One of the 64 rounds of SHA-256 on the schedule `w`; the state is the list
of the eight working variables. -/
def sha256Round (w : List Nat) (st : List Nat) (i : Nat) : List Nat :=
  match st with
  | [a, b, c, d, e, f, g, h] =>
    let s1 := rotr32 e 6 ^^^ rotr32 e 11 ^^^ rotr32 e 25
    let ch := (e &&& f) ^^^ (not32 e &&& g)
    let t1 := word32 (h + s1 + ch + sha256K.getD i 0 + w.getD i 0)
    let s0 := rotr32 a 2 ^^^ rotr32 a 13 ^^^ rotr32 a 22
    let maj := (a &&& b) ^^^ (a &&& c) ^^^ (b &&& c)
    [word32 (t1 + s0 + maj), a, b, c, word32 (d + t1), e, f, g]
  | _ => st

/-- The SHA-256 compression of one 64-byte block. -/
def sha256Block (st : List Nat) (block : List Nat) : List Nat :=
  let r := (List.range 64).foldl (sha256Round (sha256Schedule block)) st
  List.zipWith (fun x y => word32 (x + y)) st r

/-- The padded message of SHA-256. -/
def sha256Pad (msg : List Nat) : List Nat :=
  msg ++ 0x80 :: List.replicate (padZeros msg.length) 0 ++ beBytes64 (8 * msg.length % 2 ^ 64)

/-- The 32-byte SHA-256 digest: `h := sha256.New(); h.Write(msg); h.Sum(nil)`. -/
def sha256Sum (msg : List Nat) : List Nat :=
  let p := sha256Pad msg
  (foldBlocks sha256Block (p.length / 64) sha256Init p).flatMap beBytes32

/-- The key block of `hmac.New(sha256.New, key)`: a key longer than the block
size of 64 bytes is hashed first, then the key is padded with zeros. -/
def hmacKeyBlock (key : List Nat) : List Nat :=
  let k := if key.length > 64 then sha256Sum key else key
  k ++ List.replicate (64 - k.length) 0

/-- HMAC-SHA-256: `m := hmac.New(sha256.New, key); m.Write(msg); m.Sum(nil)`. -/
def hmacSHA256 (key msg : List Nat) : List Nat :=
  let kb := hmacKeyBlock key
  let ipad := kb.map (· ^^^ 0x36)
  let opad := kb.map (· ^^^ 0x5c)
  sha256Sum (opad ++ sha256Sum (ipad ++ msg))

/-! ## Hexadecimal encoding (`encoding/hex`) -/

/-- The digit table of `encoding/hex`. -/
def hextable : List Char := "0123456789abcdef".data

/-- The two digits of one byte. -/
def hexByte (b : Nat) : List Char :=
  [hextable.getD (b / 16) '0', hextable.getD (b % 16) '0']

/-- Lowercase hexadecimal encoding of a byte sequence: `hex.EncodeToString`. -/
def hexEncodeToString (bytes : List Nat) : String :=
  String.mk (bytes.flatMap hexByte)

/-! ## Go values -/

/-- A Go `error` value; `text` is what its `Error()` method returns. -/
structure GoError where
  text : String
deriving DecidableEq, Repr

/-- The error built by `errors.New`. -/
def errorsNew (text : String) : GoError := ⟨text⟩

/-- A value of type `interface{}` as `encoding/json` decodes it: `nil` for
JSON null, `bool`, `float64` (kept as its 64-bit pattern), `string`,
`[]interface{}` and `map[string]interface{}`. -/
inductive GoValue where
  | nil
  | bool (b : Bool)
  | float64 (bits : Nat)
  | string (s : String)
  | slice (xs : List GoValue)
  | map (kvs : List (String × GoValue))

/-- The dynamic type of an `interface{}` value, as a panic message prints it. -/
def GoValue.typeName : GoValue → String
  | .nil => "nil"
  | .bool _ => "bool"
  | .float64 _ => "float64"
  | .string _ => "string"
  | .slice _ => "[]interface {}"
  | .map _ => "map[string]interface {}"

/-- The index expression `v, ok := m[key]` on a `map[string]interface{}`; a
nil map behaves as the empty one. -/
def mapIndex (m : List (String × GoValue)) (key : String) : GoValue × Bool :=
  match m.lookup key with
  | some v => (v, true)
  | none => (GoValue.nil, false)

/-- The type assertion `v.(bool)`; `Except.error` is the run-time panic. -/
def assertBool (v : GoValue) : Except String Bool :=
  match v with
  | .bool b => .ok b
  | _ => .error ("interface conversion: interface {} is " ++ v.typeName ++ ", not bool")

/-- The type assertion `v.(string)`; `Except.error` is the run-time panic. -/
def assertString (v : GoValue) : Except String String :=
  match v with
  | .string s => .ok s
  | _ => .error ("interface conversion: interface {} is " ++ v.typeName ++ ", not string")

/-- Decimal rendering of an `int`: the verbs `%d` and `%+v` of `fmt`. -/
def formatInt (n : Int) : String :=
  match n with
  | Int.ofNat m => Nat.repr m
  | Int.negSucc m => "-" ++ Nat.repr (m + 1)

/-! ## HTTP requests (`net/http`) -/

/-- The bytes a header field name may hold (`textproto`): the token characters. -/
def validHeaderFieldByte (c : Char) : Bool :=
  c.isAlphanum ||
    ['!', '#', '$', '%', '&', Char.ofNat 39, '*', '+', '-', '.', '^', '_', Char.ofNat 96, '|', '~'].contains c

/-- Canonical letter case of a header name: upper case at the start and after
each hyphen, lower case elsewhere. -/
def canonicalChars : Bool → List Char → List Char
  | _, [] => []
  | upper, c :: cs =>
    let d := if upper && c.isLower then c.toUpper
      else if !upper && c.isUpper then c.toLower else c
    d :: canonicalChars (d == '-') cs

/-- The canonical form of a header name, `textproto.CanonicalMIMEHeaderKey`: a
name with a byte that is not a token character is returned unchanged. -/
def CanonicalMIMEHeaderKey (s : String) : String :=
  if s.data.all validHeaderFieldByte then String.mk (canonicalChars true s.data) else s

/-- The type `http.Header`: the values in the order they were added, each under
its canonical name. -/
abbrev Header := List (String × String)

/-- The method `Header.Add`. -/
def Header.Add (h : Header) (key value : String) : Header :=
  h ++ [(CanonicalMIMEHeaderKey key, value)]

/-- The method `Header.Get`: the first value under the name, or `""`. -/
def Header.Get (h : Header) (key : String) : String :=
  (h.lookup (CanonicalMIMEHeaderKey key)).getD ""

/-- The type `http.Request`: the method, the URL in its string form
(`req.URL.String()`), the bytes of the body and the headers. -/
structure Request where
  method : String
  url : String
  body : String
  header : Header
deriving DecidableEq, Repr

/-- The type `http.Response`, reduced to what `ioutil.ReadAll(resp.Body)` gives. -/
structure Response where
  readAll : Except GoError String

/-- The collaborators of the client. `marshal` is `json.Marshal` on the type
of the parameters, `now` is `time.Now().Format(time.RFC3339)`,
`newRequestError` is the error (invalid method, unparsable URL) with which
`http.NewRequest` rejects a method and a URL, `urlString` is the string form
`u.String()` of the URL `u` that `url.Parse` makes of a string it accepts (the
path and the fragment are encoded anew), `roundTrip` is `httpclient.Do`, and
`unmarshal` is the map that `json.Unmarshal(body, &response)` leaves in a nil
`map[string]interface{}` (its error is discarded by the caller). -/
structure Env (Params : Type) where
  marshal : Params → Except GoError String
  now : String
  newRequestError : String → String → Option GoError
  urlString : String → String
  roundTrip : Request → Except GoError Response
  unmarshal : String → List (String × GoValue)

/-- The function `http.NewRequest(method, url, strings.NewReader(body))`: an
empty method means `GET`, the method and the URL are validated, the URL of the
request is the parsed one, and the request starts with no header. -/
def newRequest {P : Type} (E : Env P) (method url body : String) : Except GoError Request :=
  let m := if method = "" then "GET" else method
  match E.newRequestError m url with
  | some err => .error err
  | none => .ok { method := m, url := E.urlString url, body := body, header := [] }

/-! ## The client (`restclient.go`) -/

/-- The struct `restclient`; the `httpclient` field is `Env.roundTrip`. -/
structure restclient where
  apiUser : Int
  apiSecret : String
  apiUrl : String
  apiVersion : Int
  apiRealm : String
  endpoint : String
  bodystr : String
  hashstr : String
  timestr : String
deriving DecidableEq, Repr

/-- The constructor `NewRestClient`. -/
def NewRestClient (apiUser : Int) (apiSecret apiUrl : String) (apiVersion : Int)
    (apiRealm : String) : restclient × Option GoError :=
  (⟨apiUser, apiSecret, apiUrl, apiVersion, apiRealm, "", "", "", ""⟩, none)

/-- The method `sign`: the lowercase hex HMAC-SHA-256 of `sign_string` under
the secret, and a nil error. -/
def sign (this : restclient) (sign_string : String) : String × Option GoError :=
  (hexEncodeToString (hmacSHA256 (stringBytes this.apiSecret) (stringBytes sign_string)), none)

/-- The string `fmt.Sprintf("%s\n%s\n%s\n%s\n%s\n%s", ...)` that
`createRequest` signs. -/
def signString (this : restclient) (method : String) : String :=
  method ++ "\n" ++ this.hashstr ++ "\n" ++ "application/json" ++ "\n" ++ this.timestr ++ "\n"
    ++ this.bodystr ++ "\n" ++ this.endpoint

/-- The method `createRequest`. -/
def createRequest {P : Type} (E : Env P) (this : restclient) (method : String) :
    Except GoError Request :=
  match newRequest E method (this.apiUrl ++ this.endpoint) this.bodystr with
  | .error err => .error err
  | .ok req =>
    match sign this (signString this method) with
    | (_, some err) => .error err
    | (signature, none) =>
      let h := req.header.Add "Content-Type" "application/json"
      let h := h.Add "Content-MD5" this.hashstr
      let h := h.Add "Date" this.timestr
      let h := h.Add "Authorization"
        (this.apiRealm ++ " " ++ formatInt this.apiUser ++ ":" ++ signature)
      .ok { req with header := h }

/-- What a call of the client does in the end: it returns its pair
`(interface{}, error)`, or a run-time panic unwinds it. -/
inductive Outcome where
  | returned (result : GoValue) (err : Option GoError)
  | panicked (reason : String)

/-- The method `handleResponse`. -/
def handleResponse {P : Type} (E : Env P) (this : restclient) (resp : Response) : Outcome :=
  match resp.readAll with
  | .error err => .returned .nil (some err)
  | .ok bodystr =>
    let response := E.unmarshal bodystr
    if this.apiVersion = 1 ∨ this.apiVersion = 2 then
      let (succeed, ok) := mapIndex response "succeed"
      if !ok then
        .returned .nil (some (errorsNew ("unexpected response from API: " ++ bodystr)))
      else
        match assertBool succeed with
        | .error p => .panicked p
        | .ok b =>
          if !b then
            match assertString (mapIndex response "message").1 with
            | .error p => .panicked p
            | .ok m => .returned .nil (some (errorsNew (this.endpoint ++ ": " ++ m)))
          else
            .returned (mapIndex response "result").1 none
    else if this.apiVersion = 3 then
      let (_, ok) := mapIndex response "items"
      if !ok then
        .returned .nil (some (errorsNew ("unexpected response from API: " ++ bodystr)))
      else
        .returned (mapIndex response "items").1 none
    else
      .returned .nil (some (errorsNew ("unexpected api version " ++ formatInt this.apiVersion)))

/-- The method of a call (lines 54-57 of `Call`): `"POST"`, or the first of the
variadic arguments. -/
def callMethod (inputMethod : List String) : String :=
  match inputMethod with
  | [] => "POST"
  | m :: _ => m

/-- The copy of the receiver that `Call` works on (its receiver is passed by
value), after the assignments of lines 52-66: the body, emptied for `GET`, its
digest, the endpoint and the timestamp of the call. -/
def callState (this : restclient) (now path bodyjson method : String) : restclient :=
  let this := { this with bodystr := bodyjson }
  let this := if method = "GET" then { this with bodystr := "" } else this
  let this := { this with hashstr := hexEncodeToString (md5Sum (stringBytes this.bodystr)) }
  let this := { this with endpoint := "/api/v" ++ formatInt this.apiVersion ++ "/" ++ path }
  { this with timestr := now }

/-- What is observed of one call: the requests handed to `httpclient.Do` and
the way the call ends. -/
structure CallTrace where
  issued : List Request
  outcome : Outcome

/-- The method `Call`: serialization, the state of the call, `createRequest`,
`httpclient.Do` and `handleResponse`, each error being returned with a nil
result. -/
def Call {P : Type} (E : Env P) (this : restclient) (path : String) (params : P)
    (inputMethod : List String) : CallTrace :=
  match E.marshal params with
  | .error err => ⟨[], .returned .nil (some err)⟩
  | .ok bodyjson =>
    let method := callMethod inputMethod
    let this := callState this E.now path bodyjson method
    match createRequest E this method with
    | .error err => ⟨[], .returned .nil (some err)⟩
    | .ok req =>
      match E.roundTrip req with
      | .error err => ⟨[req], .returned .nil (some err)⟩
      | .ok resp => ⟨[req], handleResponse E this resp⟩

/-! ## The setting of the tests (`restclient_test.go`) -/

/-- The JSON that `json.Marshal` gives for a `[]string` whose elements need no
escaping. -/
def marshalStrings (ps : List String) : String :=
  "[" ++ ",".intercalate (ps.map fun p => "\"" ++ p ++ "\"") ++ "]"

/-- The string form of the URL that `url.Parse` makes of a string with a
scheme, a host and a path and without query, fragment or percent sign, when
the space is the only character of the path that the path encoding of
`net/url` escapes: every space becomes `%20`. -/
def escapeSpaces (s : String) : String :=
  String.mk (s.data.flatMap fun c => if c = ' ' then ['%', '2', '0'] else [c])

/-- The setting of `restclient_test.go`: parameters of type `[]string`, a fixed
clock, URLs in the domain of `escapeSpaces`, and a server that answers every
request with `body`, which `json.Unmarshal` decodes to `decoded`. -/
def testEnv (body : String) (decoded : List (String × GoValue)) : Env (List String) where
  marshal := fun ps => .ok (marshalStrings ps)
  now := "2015-10-21T07:28:00Z"
  newRequestError := fun _ _ => none
  urlString := escapeSpaces
  roundTrip := fun _ => .ok ⟨.ok body⟩
  unmarshal := fun _ => decoded

/-- The client of `TestCallFail`, with the protocol version as a parameter. -/
def testClient (version : Int) : restclient :=
  (NewRestClient 123 "apisecret" "https://api.local" version "REALM").1

/-- The request that the wire contract prescribes for the call of
`TestCallFail` (path `unit/test`, account 123, secret `apisecret`, realm
`REALM`) under protocol version `v`, with the given method and body, at the
time of `testEnv`. -/
def testRequest (v : Int) (method body : String) : Request :=
  let digest := hexEncodeToString (md5Sum (stringBytes body))
  let endpoint := "/api/v" ++ formatInt v ++ "/unit/test"
  { method := method
    url := escapeSpaces ("https://api.local" ++ endpoint)
    body := body
    header := [("Content-Type", "application/json"), ("Content-Md5", digest),
      ("Date", "2015-10-21T07:28:00Z"),
      ("Authorization", "REALM" ++ " " ++ formatInt 123 ++ ":" ++
        hexEncodeToString (hmacSHA256 (stringBytes "apisecret") (stringBytes
          (method ++ "\n" ++ digest ++ "\n" ++ "application/json" ++ "\n" ++
            "2015-10-21T07:28:00Z" ++ "\n" ++ body ++ "\n" ++ endpoint))))] }

/-! ## Predicates of the statements and a setting with a failing serialization -/

/-- The format `"%s\n%s\n%s\n%s\n%s\n%s"` of the string to sign, applied to the
method, the digest, the content type, the timestamp, the body and the
endpoint. -/
def canonicalString (method digest contentType timestamp body endpoint : String) : String :=
  method ++ "\n" ++ digest ++ "\n" ++ contentType ++ "\n" ++ timestamp ++ "\n" ++ body ++ "\n"
    ++ endpoint

/-- The string holds two consecutive slashes. -/
def hasDoubleSlash (s : String) : Prop := ['/', '/'] <:+: s.data

/-- The string is made of the digits of `encoding/hex` only. -/
def isLowerHex (s : String) : Prop := ∀ ch ∈ s.data, ch ∈ hextable

/-- Two clients with the same configuration: they may differ in the working
fields `endpoint`, `bodystr`, `hashstr` and `timestr` only. -/
def sameConfig (c d : restclient) : Prop :=
  c.apiUser = d.apiUser ∧ c.apiSecret = d.apiSecret ∧ c.apiUrl = d.apiUrl ∧
    c.apiVersion = d.apiVersion ∧ c.apiRealm = d.apiRealm

/-- A setting in which the parameters are a value that `json.Marshal` rejects
(a channel), around the server of `testEnv` that answers `{}`. -/
def chanEnv : Env Unit where
  marshal := fun _ => .error (errorsNew "json: unsupported type: chan int")
  now := "2015-10-21T07:28:00Z"
  newRequestError := fun _ _ => none
  urlString := escapeSpaces
  roundTrip := fun _ => .ok ⟨.ok "\x7b\x7d"⟩
  unmarshal := fun _ => []

/-! ## Auxiliary facts -/

theorem canonical_contentType : CanonicalMIMEHeaderKey "Content-Type" = "Content-Type" := by decide
theorem canonical_contentMD5 : CanonicalMIMEHeaderKey "Content-MD5" = "Content-Md5" := by decide
theorem canonical_date : CanonicalMIMEHeaderKey "Date" = "Date" := by decide
theorem canonical_authorization : CanonicalMIMEHeaderKey "Authorization" = "Authorization" := by
  decide

/-- A request that `createRequest` returns has the body, the URL and the four
headers computed from the receiver. -/
theorem createRequest_ok {P : Type} (E : Env P) (this : restclient) (method : String)
    (r : Request) (h : createRequest E this method = .ok r) :
    r.method = (if method = "" then "GET" else method) ∧
    r.url = E.urlString (this.apiUrl ++ this.endpoint) ∧
    r.body = this.bodystr ∧
    r.header = [("Content-Type", "application/json"), ("Content-Md5", this.hashstr),
      ("Date", this.timestr),
      ("Authorization", this.apiRealm ++ " " ++ formatInt this.apiUser ++ ":" ++
        (sign this (signString this method)).1)] := by
  unfold createRequest newRequest at h
  cases hc : E.newRequestError (if method = "" then "GET" else method)
      (this.apiUrl ++ this.endpoint) with
  | some err => simp [hc] at h
  | none =>
    simp only [hc, sign] at h
    injection h with h
    subst h
    simp [Header.Add, canonical_contentType, canonical_contentMD5, canonical_date,
      canonical_authorization, sign]

/-- A request that `Call` issued was built by `createRequest` from the state of
the call, after the parameters were serialized. -/
theorem Call_issued {P : Type} (E : Env P) (this : restclient) (path : String) (params : P)
    (ms : List String) (r : Request) (h : r ∈ (Call E this path params ms).issued) :
    ∃ js, E.marshal params = .ok js ∧
      createRequest E (callState this E.now path js (callMethod ms)) (callMethod ms) = .ok r ∧
      (Call E this path params ms).outcome =
        match E.roundTrip r with
        | .error err => .returned .nil (some err)
        | .ok resp => handleResponse E (callState this E.now path js (callMethod ms)) resp := by
  unfold Call at h ⊢
  cases hm : E.marshal params with
  | error err => simp [hm] at h
  | ok js =>
    simp only [hm] at h ⊢
    cases hc : createRequest E (callState this E.now path js (callMethod ms)) (callMethod ms) with
    | error err => simp [hc] at h
    | ok req =>
      have hr : r = req := by
        simp only [hc] at h
        cases hd : E.roundTrip req <;> simpa [hd] using h
      subst hr
      refine ⟨js, rfl, hc, ?_⟩
      simp only [hc]
      cases hd : E.roundTrip r <;> rfl

theorem marshal_test : marshalStrings ["var1", "var2"] = "[\"var1\",\"var2\"]" := by decide

/-- The call of `TestCallFail` issues the request of the wire contract. -/
theorem testRequest_issued (body : String) (decoded : List (String × GoValue)) (v : Int) :
    testRequest v "POST" "[\"var1\",\"var2\"]" ∈
      (Call (testEnv body decoded) (testClient v) "unit/test" ["var1", "var2"] []).issued := by
  simp [Call, testEnv, testClient, NewRestClient, callMethod, callState, createRequest,
    newRequest, sign, signString, testRequest, Header.Add, canonical_contentType,
    canonical_contentMD5, canonical_date, canonical_authorization, marshal_test,
    String.append_assoc]

theorem testRequest_issued_GET (body : String) (decoded : List (String × GoValue)) (v : Int) :
    testRequest v "GET" "" ∈
      (Call (testEnv body decoded) (testClient v) "unit/test" ["var1", "var2"] ["GET"]).issued := by
  simp [Call, testEnv, testClient, NewRestClient, callMethod, callState, createRequest,
    newRequest, sign, signString, testRequest, Header.Add, canonical_contentType,
    canonical_contentMD5, canonical_date, canonical_authorization, marshal_test,
    String.append_assoc]

theorem callState_fixed (this : restclient) (now path js m : String) :
    (callState this now path js m).apiUser = this.apiUser ∧
    (callState this now path js m).apiSecret = this.apiSecret ∧
    (callState this now path js m).apiUrl = this.apiUrl ∧
    (callState this now path js m).apiVersion = this.apiVersion ∧
    (callState this now path js m).apiRealm = this.apiRealm := by
  by_cases h : m = "GET" <;> simp [callState, h]

theorem callState_work (this : restclient) (now path js m : String) :
    (callState this now path js m).bodystr = (if m = "GET" then "" else js) ∧
    (callState this now path js m).hashstr =
      hexEncodeToString (md5Sum (stringBytes (if m = "GET" then "" else js))) ∧
    (callState this now path js m).endpoint = "/api/v" ++ formatInt this.apiVersion ++ "/" ++ path ∧
    (callState this now path js m).timestr = now := by
  by_cases h : m = "GET" <;> simp [callState, h]

/-- The request of a call, field by field. -/
theorem Call_request {P : Type} (E : Env P) (c : restclient) (path : String) (params : P)
    (ms : List String) (r : Request) (h : r ∈ (Call E c path params ms).issued) :
    ∃ js, E.marshal params = .ok js ∧
      r.url = E.urlString (c.apiUrl ++ ("/api/v" ++ formatInt c.apiVersion ++ "/" ++ path)) ∧
      r.body = (if callMethod ms = "GET" then "" else js) ∧
      r.header.Get "Content-Type" = "application/json" ∧
      r.header.Get "Content-MD5" = hexEncodeToString (md5Sum (stringBytes r.body)) ∧
      r.header.Get "Date" = E.now ∧
      r.header.Get "Authorization" = c.apiRealm ++ " " ++ formatInt c.apiUser ++ ":" ++
        hexEncodeToString (hmacSHA256 (stringBytes c.apiSecret) (stringBytes
          (callMethod ms ++ "\n" ++ r.header.Get "Content-MD5" ++ "\n" ++ "application/json"
            ++ "\n" ++ r.header.Get "Date" ++ "\n" ++ r.body ++ "\n" ++
            ("/api/v" ++ formatInt c.apiVersion ++ "/" ++ path)))) := by
  obtain ⟨js, hm, hc, -⟩ := Call_issued E c path params ms r h
  obtain ⟨-, hu, hb, hh⟩ := createRequest_ok E _ _ r hc
  obtain ⟨h1, h2, h3, h4, h5⟩ := callState_fixed c E.now path js (callMethod ms)
  obtain ⟨w1, w2, w3, w4⟩ := callState_work c E.now path js (callMethod ms)
  refine ⟨js, hm, ?_, ?_, ?_, ?_, ?_, ?_⟩
  · rw [hu, h3, w3]
  · rw [hb, w1]
  · simp [Header.Get, hh, canonical_contentType, List.lookup]
  · simp [Header.Get, hh, canonical_contentMD5, List.lookup, hb, w1, w2]
  · simp [Header.Get, hh, canonical_date, List.lookup, w4]
  · simp [Header.Get, hh, canonical_contentMD5, canonical_date, canonical_authorization,
      List.lookup, sign, signString, h1, h2, h5, w1, w2, w3, w4, hb]

theorem md5_empty : hexEncodeToString (md5Sum (stringBytes "")) = "d41d8cd98f00b204e9800998ecf8427e" := by
  decide!

theorem md5_test_payload :
    hexEncodeToString (md5Sum (stringBytes "[\"var1\",\"var2\"]")) =
      "cdefd9b4ca40e984f3482ed3c7ae077a" := by
  decide!

/-! ## The claims -/

/-- C1: every request that `Call` builds through `createRequest` carries an
`Authorization` header equal to the realm, a space, the decimal account id, a
colon and the signature, where the signature is the lowercase hex HMAC-SHA-256
under the shared secret of the six fields joined by single newlines: the
method, the value of the `Content-MD5` header, `application/json`, the value of
the `Date` header, the body sent and the endpoint path. -/
theorem Call_authorization_header {P : Type} (E : Env P) (c : restclient) (path : String)
    (params : P) (ms : List String) (r : Request)
    (h : r ∈ (Call E c path params ms).issued) :
    r.header.Get "Authorization" =
      c.apiRealm ++ " " ++ formatInt c.apiUser ++ ":" ++
        hexEncodeToString (hmacSHA256 (stringBytes c.apiSecret) (stringBytes
          ("\n".intercalate [callMethod ms, r.header.Get "Content-MD5", "application/json",
            r.header.Get "Date", r.body,
            "/api/v" ++ formatInt c.apiVersion ++ "/" ++ path]))) := by
  obtain ⟨js, -, -, -, -, -, -, ha⟩ := Call_request E c path params ms r h
  rw [ha]
  rfl

/-- The call of `TestCallFail` at the time of `testEnv` sends
`REALM 123:` followed by the signature of that request. -/
theorem Call_authorization_header_witness :
    (testRequest 1 "POST" "[\"var1\",\"var2\"]").header.Get "Authorization" =
      "REALM 123:834e6db6216ab51036f05685be030b49c3d7492fa4308e5d11c181db490cd018" :=
  (Call_authorization_header (testEnv "" []) (testClient 1) "unit/test" ["var1", "var2"] []
    (testRequest 1 "POST" "[\"var1\",\"var2\"]") (testRequest_issued "" [] 1)).trans (by decide!)

/-- C2: `sign` returns a nil error and the lowercase hex HMAC-SHA-256 of its
argument under the secret; it depends on the secret and the argument only; on
the vector of `TestSignature` it gives `9f29f870...2da062`. -/
theorem sign_hmac_sha256 :
    (∀ (c : restclient) (s : String),
      (sign c s).2 = none ∧
      (sign c s).1 = hexEncodeToString (hmacSHA256 (stringBytes c.apiSecret) (stringBytes s))) ∧
    (∀ (c d : restclient) (s : String), c.apiSecret = d.apiSecret → sign c s = sign d s) ∧
    sign (NewRestClient 123 "apisecret" "https://api.local" 1 "REALM").1
      "POST\ncdefd9b4ca40e984f3482ed3c7ae077a\napplication/json\nWed, 21 Oct 2015 07:28:00 GMT\n[\"var1\",\"var2\"]\n/api/v1/unit/test"
      = ("9f29f8706f8e5720eb4950650e11f70c7d4680d59876e1250968212f742da062", none) := by
  refine ⟨fun c s => ⟨rfl, rfl⟩, fun c d s hs => ?_, by decide!⟩
  simp [sign, hs]

/-- C3: when the parameters serialize to `js`, the body that `Call` works with
(and sends) is empty exactly for the method `GET`, with the MD5 digest of the
empty string, and is `js` for every other method string. -/
theorem Call_body_GET_only {P : Type} (E : Env P) (c : restclient) (path : String)
    (params : P) (ms : List String) (js : String) (hm : E.marshal params = .ok js) :
    (callMethod ms = "GET" →
      (callState c E.now path js (callMethod ms)).bodystr = "" ∧
      (callState c E.now path js (callMethod ms)).hashstr = "d41d8cd98f00b204e9800998ecf8427e") ∧
    (callMethod ms ≠ "GET" →
      (callState c E.now path js (callMethod ms)).bodystr = js ∧
      (callState c E.now path js (callMethod ms)).hashstr =
        hexEncodeToString (md5Sum (stringBytes js))) ∧
    ∀ r ∈ (Call E c path params ms).issued,
      r.body = (callState c E.now path js (callMethod ms)).bodystr ∧
      r.header.Get "Content-MD5" = (callState c E.now path js (callMethod ms)).hashstr := by
  obtain ⟨w1, w2, -, -⟩ := callState_work c E.now path js (callMethod ms)
  refine ⟨fun hg => ?_, fun hg => ?_, fun r hr => ?_⟩
  · rw [w1, w2]; simp [hg, md5_empty]
  · rw [w1, w2]; simp [hg]
  · obtain ⟨js2, hm2, -, hb, -, hd, -, -⟩ := Call_request E c path params ms r hr
    rw [hm] at hm2
    injection hm2 with hm2
    subst hm2
    rw [hd, hb, w1, w2]
    exact ⟨rfl, rfl⟩

/-- With the parameters of `TestCallFail`, a `GET` call sends an empty body and
the digest of the empty string, and a `get` call sends the JSON parameters. -/
theorem Call_body_GET_only_witness :
    ((testRequest 1 "GET" "").body = "" ∧
      (testRequest 1 "GET" "").header.Get "Content-MD5" = "d41d8cd98f00b204e9800998ecf8427e") ∧
    (callState (testClient 1) "2015-10-21T07:28:00Z" "unit/test" "[\"var1\",\"var2\"]"
      "get").bodystr = "[\"var1\",\"var2\"]" := by
  have hG := Call_body_GET_only (testEnv "" []) (testClient 1) "unit/test" ["var1", "var2"]
    ["GET"] "[\"var1\",\"var2\"]" (congrArg Except.ok marshal_test)
  have hg := Call_body_GET_only (testEnv "" []) (testClient 1) "unit/test" ["var1", "var2"]
    ["get"] "[\"var1\",\"var2\"]" (congrArg Except.ok marshal_test)
  refine ⟨?_, (hg.2.1 (by decide)).1⟩
  have h := hG.2.2 _ (testRequest_issued_GET "" [] 1)
  have h0 := hG.1 rfl
  exact ⟨h.1.trans h0.1, h.2.trans h0.2⟩

/-- C4: in every request that `Call` builds, the `Content-MD5` header is the
lowercase hex MD5 digest of the bytes of the request body, and the body that is
signed is that same string; the body `["var1","var2"]` has the digest
`cdefd9b4ca40e984f3482ed3c7ae077a`. -/
theorem Call_content_md5_header {P : Type} (E : Env P) (c : restclient) (path : String)
    (params : P) (ms : List String) (r : Request)
    (h : r ∈ (Call E c path params ms).issued) :
    r.header.Get "Content-MD5" = hexEncodeToString (md5Sum (stringBytes r.body)) ∧
    r.header.Get "Authorization" = c.apiRealm ++ " " ++ formatInt c.apiUser ++ ":" ++
      (sign c (callMethod ms ++ "\n" ++ hexEncodeToString (md5Sum (stringBytes r.body)) ++ "\n"
        ++ "application/json" ++ "\n" ++ r.header.Get "Date" ++ "\n" ++ r.body ++ "\n" ++
        ("/api/v" ++ formatInt c.apiVersion ++ "/" ++ path))).1 ∧
    hexEncodeToString (md5Sum (stringBytes "[\"var1\",\"var2\"]")) =
      "cdefd9b4ca40e984f3482ed3c7ae077a" := by
  obtain ⟨js, -, -, -, -, hd, -, ha⟩ := Call_request E c path params ms r h
  refine ⟨hd, ?_, md5_test_payload⟩
  rw [ha, hd]
  rfl

/-- The request of `TestCallFail` carries the payload `["var1","var2"]` and its
digest. -/
theorem Call_content_md5_header_witness :
    (testRequest 1 "POST" "[\"var1\",\"var2\"]").body = "[\"var1\",\"var2\"]" ∧
    (testRequest 1 "POST" "[\"var1\",\"var2\"]").header.Get "Content-MD5" =
      "cdefd9b4ca40e984f3482ed3c7ae077a" :=
  ⟨rfl, ((Call_content_md5_header (testEnv "" []) (testClient 1) "unit/test" ["var1", "var2"] []
    (testRequest 1 "POST" "[\"var1\",\"var2\"]") (testRequest_issued "" [] 1)).1).trans
    md5_test_payload⟩

/-- The outcome of a call whose request was answered: `handleResponse` on the
state of the call. -/
theorem Call_outcome {P : Type} (E : Env P) (c : restclient) (path : String) (params : P)
    (ms : List String) (r : Request) (resp : Response)
    (hr : r ∈ (Call E c path params ms).issued) (ht : E.roundTrip r = .ok resp) :
    ∃ js, (Call E c path params ms).outcome =
      handleResponse E (callState c E.now path js (callMethod ms)) resp := by
  obtain ⟨js, -, -, ho⟩ := Call_issued E c path params ms r hr
  exact ⟨js, by rw [ho, ht]⟩

/-- C5: under version 1 or 2, when the decoded response has `"succeed"` equal
to the boolean false and `"message"` equal to a string `m`, `Call` returns a nil
result and the error whose text is `/api/v{version}/{path}: m`. -/
theorem Call_api_failure {P : Type} (E : Env P) (c : restclient) (path : String) (params : P)
    (ms : List String) (r : Request) (resp : Response) (body m : String)
    (hv : c.apiVersion = 1 ∨ c.apiVersion = 2)
    (hr : r ∈ (Call E c path params ms).issued) (ht : E.roundTrip r = .ok resp)
    (hb : resp.readAll = .ok body)
    (hs : (E.unmarshal body).lookup "succeed" = some (.bool false))
    (hmsg : (E.unmarshal body).lookup "message" = some (.string m)) :
    (Call E c path params ms).outcome =
      .returned .nil
        (some (errorsNew ("/api/v" ++ formatInt c.apiVersion ++ "/" ++ path ++ ": " ++ m))) := by
  obtain ⟨js, ho⟩ := Call_outcome E c path params ms r resp hr ht
  obtain ⟨-, -, -, h4, -⟩ := callState_fixed c E.now path js (callMethod ms)
  obtain ⟨-, -, w3, -⟩ := callState_work c E.now path js (callMethod ms)
  rw [ho]
  simp [handleResponse, hb, h4, hv, mapIndex, hs, hmsg, assertBool, assertString, w3]

/-- The call of `TestCallFail`: the answer
`{"succeed":false,"message":"unit test fail"}` gives a nil result and the error
`/api/v1/unit/test: unit test fail`. -/
theorem Call_api_failure_witness :
    (Call (testEnv "\x7b\"succeed\":false,\"message\":\"unit test fail\"\x7d"
      [("succeed", .bool false), ("message", .string "unit test fail")])
      (testClient 1) "unit/test" ["var1", "var2"] []).outcome =
      .returned .nil (some (errorsNew "/api/v1/unit/test: unit test fail")) :=
  (Call_api_failure
    (testEnv "\x7b\"succeed\":false,\"message\":\"unit test fail\"\x7d"
      [("succeed", .bool false), ("message", .string "unit test fail")])
    (testClient 1) "unit/test" ["var1", "var2"] []
    (testRequest 1 "POST" "[\"var1\",\"var2\"]")
    ⟨.ok "\x7b\"succeed\":false,\"message\":\"unit test fail\"\x7d"⟩
    "\x7b\"succeed\":false,\"message\":\"unit test fail\"\x7d" "unit test fail"
    (Or.inl rfl) (testRequest_issued _ _ 1) rfl rfl rfl rfl).trans
    (congrArg (fun t => Outcome.returned GoValue.nil (some (errorsNew t))) (by decide))

/-- C6: under version 1 or 2, when the decoded response has `"succeed"` equal
to the boolean true, `Call` returns a nil error and the decoded value of the
`"result"` key unchanged, whatever its type, or nil when the key is absent. -/
theorem Call_api_success {P : Type} (E : Env P) (c : restclient) (path : String) (params : P)
    (ms : List String) (r : Request) (resp : Response) (body : String)
    (hv : c.apiVersion = 1 ∨ c.apiVersion = 2)
    (hr : r ∈ (Call E c path params ms).issued) (ht : E.roundTrip r = .ok resp)
    (hb : resp.readAll = .ok body)
    (hs : (E.unmarshal body).lookup "succeed" = some (.bool true)) :
    (Call E c path params ms).outcome =
      .returned (((E.unmarshal body).lookup "result").getD .nil) none := by
  obtain ⟨js, ho⟩ := Call_outcome E c path params ms r resp hr ht
  obtain ⟨-, -, -, h4, -⟩ := callState_fixed c E.now path js (callMethod ms)
  rw [ho]
  cases hres : (E.unmarshal body).lookup "result" <;>
    simp [handleResponse, hb, h4, hv, mapIndex, hs, hres, assertBool]

/-- The answers of `TestCallSuccess1` and `TestCallSuccess2` give their
`"result"` values, and an answer without `"result"` gives nil. -/
theorem Call_api_success_witness :
    (Call (testEnv "\x7b\"succeed\":true,\"result\":[\"val1\",\"val2\"]\x7d"
      [("succeed", .bool true), ("result", .slice [.string "val1", .string "val2"])])
      (testClient 1) "unit/test" ["var1", "var2"] []).outcome =
      .returned (.slice [.string "val1", .string "val2"]) none ∧
    (Call (testEnv "\x7b\"succeed\":true,\"result\":[\x7b\"key1\":\"val1\"\x7d,\x7b\"key2\":\"val2\"\x7d]\x7d"
      [("succeed", .bool true),
        ("result", .slice [.map [("key1", .string "val1")], .map [("key2", .string "val2")]])])
      (testClient 2) "unit/test" ["var1", "var2"] []).outcome =
      .returned (.slice [.map [("key1", .string "val1")], .map [("key2", .string "val2")]]) none ∧
    (Call (testEnv "\x7b\"succeed\":true\x7d" [("succeed", .bool true)])
      (testClient 1) "unit/test" ["var1", "var2"] []).outcome = .returned .nil none :=
  ⟨Call_api_success
      (testEnv "\x7b\"succeed\":true,\"result\":[\"val1\",\"val2\"]\x7d"
        [("succeed", .bool true), ("result", .slice [.string "val1", .string "val2"])])
      (testClient 1) "unit/test" ["var1", "var2"] []
      (testRequest 1 "POST" "[\"var1\",\"var2\"]")
      ⟨.ok "\x7b\"succeed\":true,\"result\":[\"val1\",\"val2\"]\x7d"⟩
      "\x7b\"succeed\":true,\"result\":[\"val1\",\"val2\"]\x7d"
      (Or.inl rfl) (testRequest_issued _ _ 1) rfl rfl rfl,
    Call_api_success
      (testEnv "\x7b\"succeed\":true,\"result\":[\x7b\"key1\":\"val1\"\x7d,\x7b\"key2\":\"val2\"\x7d]\x7d"
        [("succeed", .bool true),
          ("result", .slice [.map [("key1", .string "val1")], .map [("key2", .string "val2")]])])
      (testClient 2) "unit/test" ["var1", "var2"] []
      (testRequest 2 "POST" "[\"var1\",\"var2\"]")
      ⟨.ok "\x7b\"succeed\":true,\"result\":[\x7b\"key1\":\"val1\"\x7d,\x7b\"key2\":\"val2\"\x7d]\x7d"⟩
      "\x7b\"succeed\":true,\"result\":[\x7b\"key1\":\"val1\"\x7d,\x7b\"key2\":\"val2\"\x7d]\x7d"
      (Or.inr rfl) (testRequest_issued _ _ 2) rfl rfl rfl,
    Call_api_success (testEnv "\x7b\"succeed\":true\x7d" [("succeed", .bool true)])
      (testClient 1) "unit/test" ["var1", "var2"] []
      (testRequest 1 "POST" "[\"var1\",\"var2\"]")
      ⟨.ok "\x7b\"succeed\":true\x7d"⟩ "\x7b\"succeed\":true\x7d"
      (Or.inl rfl) (testRequest_issued _ _ 1) rfl rfl rfl⟩

/-- C7: under version 3, when the decoded response has an `"items"` key,
`Call` returns a nil error and the decoded value of `"items"`, whatever the
other keys of the response are. -/
theorem Call_items {P : Type} (E : Env P) (c : restclient) (path : String) (params : P)
    (ms : List String) (r : Request) (resp : Response) (body : String) (v : GoValue)
    (hv : c.apiVersion = 3)
    (hr : r ∈ (Call E c path params ms).issued) (ht : E.roundTrip r = .ok resp)
    (hb : resp.readAll = .ok body)
    (hi : (E.unmarshal body).lookup "items" = some v) :
    (Call E c path params ms).outcome = .returned v none := by
  obtain ⟨js, ho⟩ := Call_outcome E c path params ms r resp hr ht
  obtain ⟨-, -, -, h4, -⟩ := callState_fixed c E.now path js (callMethod ms)
  rw [ho]
  simp [handleResponse, hb, h4, hv, mapIndex, hi]

/-- Under version 3 an answer with `"succeed": false`, a message and items
gives the items. -/
theorem Call_items_witness :
    (Call (testEnv "\x7b\"succeed\":false,\"message\":\"no\",\"items\":[\"val1\"]\x7d"
      [("succeed", .bool false), ("message", .string "no"), ("items", .slice [.string "val1"])])
      (testClient 3) "unit/test" ["var1", "var2"] []).outcome =
      .returned (.slice [.string "val1"]) none :=
  Call_items
    (testEnv "\x7b\"succeed\":false,\"message\":\"no\",\"items\":[\"val1\"]\x7d"
      [("succeed", .bool false), ("message", .string "no"), ("items", .slice [.string "val1"])])
    (testClient 3) "unit/test" ["var1", "var2"] []
    (testRequest 3 "POST" "[\"var1\",\"var2\"]")
    ⟨.ok "\x7b\"succeed\":false,\"message\":\"no\",\"items\":[\"val1\"]\x7d"⟩
    "\x7b\"succeed\":false,\"message\":\"no\",\"items\":[\"val1\"]\x7d"
    (.slice [.string "val1"]) rfl (testRequest_issued _ _ 3) rfl rfl rfl

/-- C8: when the decoded response lacks the marker key of the configured
version (`"succeed"` for 1 and 2, `"items"` for 3), `Call` returns a nil result
and the error `unexpected response from API: ` followed by the raw body. -/
theorem Call_missing_marker {P : Type} (E : Env P) (c : restclient) (path : String)
    (params : P) (ms : List String) (r : Request) (resp : Response) (body : String)
    (hr : r ∈ (Call E c path params ms).issued) (ht : E.roundTrip r = .ok resp)
    (hb : resp.readAll = .ok body)
    (hk : ((c.apiVersion = 1 ∨ c.apiVersion = 2) ∧ (E.unmarshal body).lookup "succeed" = none) ∨
      (c.apiVersion = 3 ∧ (E.unmarshal body).lookup "items" = none)) :
    (Call E c path params ms).outcome =
      .returned .nil (some (errorsNew ("unexpected response from API: " ++ body))) := by
  obtain ⟨js, ho⟩ := Call_outcome E c path params ms r resp hr ht
  obtain ⟨-, -, -, h4, -⟩ := callState_fixed c E.now path js (callMethod ms)
  rw [ho]
  rcases hk with ⟨hv, hs⟩ | ⟨hv, hi⟩
  · simp [handleResponse, hb, h4, hv, mapIndex, hs]
  · simp [handleResponse, hb, h4, hv, mapIndex, hi]

/-- The answer `{}` under the versions 1, 2 and 3. -/
theorem Call_missing_marker_witness :
    (Call (testEnv "\x7b\x7d" []) (testClient 1) "unit/test" ["var1", "var2"] []).outcome =
      .returned .nil (some (errorsNew "unexpected response from API: \x7b\x7d")) ∧
    (Call (testEnv "\x7b\x7d" []) (testClient 2) "unit/test" ["var1", "var2"] []).outcome =
      .returned .nil (some (errorsNew "unexpected response from API: \x7b\x7d")) ∧
    (Call (testEnv "\x7b\x7d" []) (testClient 3) "unit/test" ["var1", "var2"] []).outcome =
      .returned .nil (some (errorsNew "unexpected response from API: \x7b\x7d")) :=
  ⟨Call_missing_marker (testEnv "\x7b\x7d" []) (testClient 1) "unit/test" ["var1", "var2"] []
      (testRequest 1 "POST" "[\"var1\",\"var2\"]") ⟨.ok "\x7b\x7d"⟩ "\x7b\x7d"
      (testRequest_issued _ _ 1) rfl rfl (Or.inl ⟨Or.inl rfl, rfl⟩),
    Call_missing_marker (testEnv "\x7b\x7d" []) (testClient 2) "unit/test" ["var1", "var2"] []
      (testRequest 2 "POST" "[\"var1\",\"var2\"]") ⟨.ok "\x7b\x7d"⟩ "\x7b\x7d"
      (testRequest_issued _ _ 2) rfl rfl (Or.inl ⟨Or.inr rfl, rfl⟩),
    Call_missing_marker (testEnv "\x7b\x7d" []) (testClient 3) "unit/test" ["var1", "var2"] []
      (testRequest 3 "POST" "[\"var1\",\"var2\"]") ⟨.ok "\x7b\x7d"⟩ "\x7b\x7d"
      (testRequest_issued _ _ 3) rfl rfl (Or.inr ⟨rfl, rfl⟩)⟩

/-- C9: for a configured version `v` other than 1, 2 and 3, `NewRestClient`
builds the client without error, and handling any response body that was read
returns a nil result and the error `unexpected api version ` followed by the
decimal rendering of `v`, in `handleResponse` and so in `Call`. -/
theorem unsupported_version (v : Int) (hv : v ≠ 1 ∧ v ≠ 2 ∧ v ≠ 3) :
    (∀ (user : Int) (secret url realm : String),
      (NewRestClient user secret url v realm).2 = none ∧
      (NewRestClient user secret url v realm).1.apiVersion = v) ∧
    (∀ (P : Type) (E : Env P) (this : restclient) (resp : Response) (body : String),
      this.apiVersion = v → resp.readAll = .ok body →
      handleResponse E this resp =
        .returned .nil (some (errorsNew ("unexpected api version " ++ formatInt v)))) ∧
    (∀ (P : Type) (E : Env P) (c : restclient) (path : String) (params : P) (ms : List String)
      (r : Request) (resp : Response) (body : String),
      c.apiVersion = v → r ∈ (Call E c path params ms).issued → E.roundTrip r = .ok resp →
      resp.readAll = .ok body →
      (Call E c path params ms).outcome =
        .returned .nil (some (errorsNew ("unexpected api version " ++ formatInt v)))) := by
  obtain ⟨h1, h2, h3⟩ := hv
  have key : ∀ (P : Type) (E : Env P) (this : restclient) (resp : Response) (body : String),
      this.apiVersion = v → resp.readAll = .ok body →
      handleResponse E this resp =
        .returned .nil (some (errorsNew ("unexpected api version " ++ formatInt v))) := by
    intro P E this resp body ht hb
    simp [handleResponse, hb, ht, h1, h2, h3]
  refine ⟨fun user secret url realm => ⟨rfl, rfl⟩, key, ?_⟩
  intro P E c path params ms r resp body hc hr ht hb
  obtain ⟨js, ho⟩ := Call_outcome E c path params ms r resp hr ht
  obtain ⟨-, -, -, h4, -⟩ := callState_fixed c E.now path js (callMethod ms)
  rw [ho]
  exact key P E _ resp body (h4.trans hc) hb

/-- The versions 4, 0 and -1 on an answer that version 1 would accept. -/
theorem unsupported_version_witness :
    (Call (testEnv "\x7b\"succeed\":true\x7d" [("succeed", .bool true)])
      (testClient 4) "unit/test" ["var1", "var2"] []).outcome =
      .returned .nil (some (errorsNew "unexpected api version 4")) ∧
    handleResponse (testEnv "not json" []) (testClient 0) ⟨.ok "not json"⟩ =
      .returned .nil (some (errorsNew "unexpected api version 0")) ∧
    handleResponse (testEnv "\x7b\"items\":[]\x7d" [("items", .slice [])]) (testClient (-1))
      ⟨.ok "\x7b\"items\":[]\x7d"⟩ =
      .returned .nil (some (errorsNew "unexpected api version -1")) :=
  ⟨((unsupported_version 4 (by decide)).2.2 (List String)
      (testEnv "\x7b\"succeed\":true\x7d" [("succeed", .bool true)])
      (testClient 4) "unit/test" ["var1", "var2"] []
      (testRequest 4 "POST" "[\"var1\",\"var2\"]") ⟨.ok "\x7b\"succeed\":true\x7d"⟩
      "\x7b\"succeed\":true\x7d" rfl (testRequest_issued _ _ 4) rfl rfl).trans
      (congrArg (fun t => Outcome.returned GoValue.nil (some (errorsNew t))) (by decide)),
    ((unsupported_version 0 (by decide)).2.1 (List String) (testEnv "not json" [])
      (testClient 0) ⟨.ok "not json"⟩ "not json" rfl rfl).trans
      (congrArg (fun t => Outcome.returned GoValue.nil (some (errorsNew t))) (by decide)),
    ((unsupported_version (-1) (by decide)).2.1 (List String)
      (testEnv "\x7b\"items\":[]\x7d" [("items", .slice [])]) (testClient (-1))
      ⟨.ok "\x7b\"items\":[]\x7d"⟩ "\x7b\"items\":[]\x7d" rfl rfl).trans
      (congrArg (fun t => Outcome.returned GoValue.nil (some (errorsNew t))) (by decide))⟩

/-- C10: `handleResponse` does not always return: under version 1 the answer
`{"succeed":null}` ends the call of `TestCallFail` in the panic of the type
assertion `succeed.(bool)`, as do the values `0` and `"no"`; and an answer with
`"succeed": false` and no `"message"`, or a `"message"` that is not a string,
ends in the panic of `response["message"].(string)`. -/
theorem handleResponse_panics :
    (Call (testEnv "\x7b\"succeed\":null\x7d" [("succeed", .nil)])
      (testClient 1) "unit/test" ["var1", "var2"] []).outcome =
      .panicked "interface conversion: interface {} is nil, not bool" ∧
    handleResponse (testEnv "\x7b\"succeed\":0\x7d" [("succeed", .float64 0)]) (testClient 1)
      ⟨.ok "\x7b\"succeed\":0\x7d"⟩ =
      .panicked "interface conversion: interface {} is float64, not bool" ∧
    handleResponse (testEnv "\x7b\"succeed\":\"no\"\x7d" [("succeed", .string "no")])
      (testClient 2) ⟨.ok "\x7b\"succeed\":\"no\"\x7d"⟩ =
      .panicked "interface conversion: interface {} is string, not bool" ∧
    handleResponse (testEnv "\x7b\"succeed\":false\x7d" [("succeed", .bool false)])
      (testClient 1) ⟨.ok "\x7b\"succeed\":false\x7d"⟩ =
      .panicked "interface conversion: interface {} is nil, not string" ∧
    handleResponse (testEnv "\x7b\"succeed\":false,\"message\":[]\x7d"
      [("succeed", .bool false), ("message", .slice [])])
      (testClient 2) ⟨.ok "\x7b\"succeed\":false,\"message\":[]\x7d"⟩ =
      .panicked "interface conversion: interface {} is []interface {}, not string" := by
  refine ⟨?_, ?_, ?_, ?_, ?_⟩
  · obtain ⟨js, ho⟩ := Call_outcome (testEnv "\x7b\"succeed\":null\x7d" [("succeed", .nil)])
      (testClient 1) "unit/test" ["var1", "var2"] [] _ ⟨.ok "\x7b\"succeed\":null\x7d"⟩
      (testRequest_issued _ _ 1) rfl
    rw [ho]
    rfl
  all_goals rfl

/-! ## The claims on decoding, the endpoint, the method and the requests issued -/

/-- C11: under version 1, 2 or 3, when decoding the body fails, so that
`json.Unmarshal` leaves the response map nil (a body that is not a JSON
object), no decoding error is reported: `Call` returns a nil result and the
error of the missing marker key, `unexpected response from API: ` followed by
the raw body. -/
theorem Call_decode_failure {P : Type} (E : Env P) (c : restclient) (path : String)
    (params : P) (ms : List String) (r : Request) (resp : Response) (body : String)
    (hv : c.apiVersion = 1 ∨ c.apiVersion = 2 ∨ c.apiVersion = 3)
    (hr : r ∈ (Call E c path params ms).issued) (ht : E.roundTrip r = .ok resp)
    (hb : resp.readAll = .ok body) (hd : E.unmarshal body = []) :
    (Call E c path params ms).outcome =
      .returned .nil (some (errorsNew ("unexpected response from API: " ++ body))) := by
  obtain ⟨js, ho⟩ := Call_outcome E c path params ms r resp hr ht
  obtain ⟨-, -, -, h4, -⟩ := callState_fixed c E.now path js (callMethod ms)
  rw [ho]
  rcases hv with hv | hv | hv <;> simp [handleResponse, hb, h4, hv, mapIndex, hd]

/-- A body that is not JSON under version 1, an empty body under version 2 and
a JSON array under version 3. -/
theorem Call_decode_failure_witness :
    (Call (testEnv "<html>busy</html>" []) (testClient 1) "unit/test" ["var1", "var2"]
      []).outcome =
      .returned .nil (some (errorsNew "unexpected response from API: <html>busy</html>")) ∧
    (Call (testEnv "" []) (testClient 2) "unit/test" ["var1", "var2"] []).outcome =
      .returned .nil (some (errorsNew "unexpected response from API: ")) ∧
    (Call (testEnv "[1,2]" []) (testClient 3) "unit/test" ["var1", "var2"] []).outcome =
      .returned .nil (some (errorsNew "unexpected response from API: [1,2]")) :=
  ⟨Call_decode_failure (testEnv "<html>busy</html>" []) (testClient 1) "unit/test"
      ["var1", "var2"] [] (testRequest 1 "POST" "[\"var1\",\"var2\"]")
      ⟨.ok "<html>busy</html>"⟩ "<html>busy</html>" (Or.inl rfl)
      (testRequest_issued _ _ 1) rfl rfl rfl,
    Call_decode_failure (testEnv "" []) (testClient 2) "unit/test" ["var1", "var2"] []
      (testRequest 2 "POST" "[\"var1\",\"var2\"]") ⟨.ok ""⟩ "" (Or.inr (Or.inl rfl))
      (testRequest_issued _ _ 2) rfl rfl rfl,
    Call_decode_failure (testEnv "[1,2]" []) (testClient 3) "unit/test" ["var1", "var2"] []
      (testRequest 3 "POST" "[\"var1\",\"var2\"]") ⟨.ok "[1,2]"⟩ "[1,2]" (Or.inr (Or.inr rfl))
      (testRequest_issued _ _ 3) rfl rfl rfl⟩

/-- C12 as stated fails: for the path `unit test` the endpoint is
`/api/v1/unit test`, but the URL of the request is not the base URL followed
by it: `net/http` has parsed the string and encoded the path anew. -/
theorem Call_url_encoded_anew :
    (callState (testClient 1) "2015-10-21T07:28:00Z" "unit test" "[\"var1\",\"var2\"]"
      "POST").endpoint = "/api/v1/unit test" ∧
    (Call (testEnv "\x7b\x7d" []) (testClient 1) "unit test" ["var1", "var2"]
      []).issued.map Request.url = ["https://api.local/api/v1/unit%20test"] ∧
    "https://api.local/api/v1/unit%20test" ≠ "https://api.local" ++ "/api/v1/unit test" := by
  decide

/-- C12, amended: the endpoint that `Call` computes is `/api/v`, the decimal
version, a slash and the path unchanged; the string from which the request is
created is the base URL followed by it, and the URL of the request is the
string form of what `url.Parse` makes of that string; the endpoint is the
sixth field of the signed string; and it is the prefix of the error of an API
failure. -/
theorem endpoint_of_Call {P : Type} (E : Env P) (c : restclient) (path : String) (params : P)
    (ms : List String) :
    (∀ js : String, (callState c E.now path js (callMethod ms)).endpoint =
      "/api/v" ++ formatInt c.apiVersion ++ "/" ++ path) ∧
    (∀ r ∈ (Call E c path params ms).issued,
      r.url = E.urlString (c.apiUrl ++ ("/api/v" ++ formatInt c.apiVersion ++ "/" ++ path)) ∧
      r.header.Get "Authorization" = c.apiRealm ++ " " ++ formatInt c.apiUser ++ ":" ++
        (sign c (canonicalString (callMethod ms) (r.header.Get "Content-MD5") "application/json"
          (r.header.Get "Date") r.body
          ("/api/v" ++ formatInt c.apiVersion ++ "/" ++ path))).1) ∧
    (∀ (r : Request) (resp : Response) (body m : String),
      (c.apiVersion = 1 ∨ c.apiVersion = 2) → r ∈ (Call E c path params ms).issued →
      E.roundTrip r = .ok resp → resp.readAll = .ok body →
      (E.unmarshal body).lookup "succeed" = some (.bool false) →
      (E.unmarshal body).lookup "message" = some (.string m) →
      (Call E c path params ms).outcome = .returned .nil (some (errorsNew
        (("/api/v" ++ formatInt c.apiVersion ++ "/" ++ path) ++ ": " ++ m)))) ∧
    (callState (testClient 1) "2015-10-21T07:28:00Z" "unit/test" "" "POST").endpoint =
      "/api/v1/unit/test" ∧
    (callState (testClient (-20)) "2015-10-21T07:28:00Z" " a b/%2F?q=1#f " "" "POST").endpoint =
      "/api/v-20/ a b/%2F?q=1#f " := by
  refine ⟨fun js => (callState_work c E.now path js (callMethod ms)).2.2.1, fun r hr => ?_,
    fun r resp body m hv hr ht hb hs hmsg => ?_, by decide, by decide⟩
  · obtain ⟨js, -, hu, -, -, -, -, ha⟩ := Call_request E c path params ms r hr
    exact ⟨hu, ha⟩
  · obtain ⟨js, ho⟩ := Call_outcome E c path params ms r resp hr ht
    obtain ⟨-, -, -, h4, -⟩ := callState_fixed c E.now path js (callMethod ms)
    obtain ⟨-, -, w3, -⟩ := callState_work c E.now path js (callMethod ms)
    rw [ho]
    simp [handleResponse, hb, h4, hv, mapIndex, hs, hmsg, assertBool, assertString, w3]

theorem digitChar_ne_slash (n : Nat) (h : n < 10) : Nat.digitChar n ≠ '/' := by
  interval_cases n <;> decide

theorem toDigitsCore_no_slash (f : Nat) : ∀ (n : Nat) (ds : List Char),
    '/' ∉ ds → '/' ∉ Nat.toDigitsCore 10 f n ds := by
  induction f with
  | zero => intro n ds h; simpa [Nat.toDigitsCore] using h
  | succ f ih =>
    intro n ds h
    have hc : '/' ∉ Nat.digitChar (n % 10) :: ds := by
      simp only [List.mem_cons, not_or]
      exact ⟨fun e => digitChar_ne_slash _ (Nat.mod_lt _ (by decide)) e.symm, h⟩
    simp only [Nat.toDigitsCore]
    split
    · exact hc
    · exact ih _ _ hc

theorem formatInt_no_slash (v : Int) : '/' ∉ (formatInt v).data := by
  cases v with
  | ofNat m =>
    simp only [formatInt, Nat.repr, Nat.toDigits, List.asString]
    exact toDigitsCore_no_slash _ _ _ (by simp)
  | negSucc m =>
    simp only [formatInt, Nat.repr, Nat.toDigits, List.asString, String.data_append,
      List.mem_append, not_or]
    exact ⟨by decide, toDigitsCore_no_slash _ _ _ (by simp)⟩

/-- Two slashes in a concatenation lie in one of the parts or across the
junction. -/
theorem doubleSlash_append (l1 l2 : List Char) (h : ['/', '/'] <:+: l1 ++ l2) :
    ['/', '/'] <:+: l1 ∨ ['/', '/'] <:+: l2 ∨ (l1.getLast? = some '/' ∧ l2.head? = some '/') := by
  obtain ⟨a, b, hab⟩ := h
  have hab2 : a ++ ('/' :: '/' :: b) = l1 ++ l2 := by simpa using hab
  rcases List.append_eq_append_iff.mp hab2 with ⟨t, h1, h2⟩ | ⟨t, h1, h2⟩
  · -- l1 = a ++ t, '/' :: '/' :: b = t ++ l2
    cases t with
    | nil => exact Or.inr (Or.inl ⟨[], b, by simpa using h2⟩)
    | cons x t =>
      cases t with
      | nil =>
        simp only [List.singleton_append, List.cons.injEq] at h2
        refine Or.inr (Or.inr ⟨?_, ?_⟩)
        · rw [h1, ← h2.1]; simp
        · rw [← h2.2]; rfl
      | cons y t =>
        simp only [List.cons_append, List.cons.injEq] at h2
        refine Or.inl ⟨a, t, ?_⟩
        rw [h1, ← h2.1, ← h2.2.1]; simp
  · -- a = l1 ++ t, l2 = t ++ '/' :: '/' :: b
    exact Or.inr (Or.inl ⟨t, b, by rw [h2]; simp⟩)

theorem slash_mem_of_doubleSlash (l : List Char) (h : ['/', '/'] <:+: l) : '/' ∈ l :=
  h.subset (by simp)

/-- The part of the endpoint before the path holds no double slash. -/
theorem endpoint_head_no_doubleSlash (v : Int) :
    ¬ ['/', '/'] <:+: ("/api/v" ++ formatInt v ++ "/").data := by
  intro h
  simp only [String.data_append] at h
  rcases doubleSlash_append _ _ h with h1 | h1 | ⟨h1, -⟩
  · rcases doubleSlash_append _ _ h1 with h2 | h2 | ⟨h2, -⟩
    · exact absurd h2 (by decide)
    · exact formatInt_no_slash v (slash_mem_of_doubleSlash _ h2)
    · exact absurd h2 (by decide)
  · exact absurd h1 (by decide)
  · rw [List.getLast?_append] at h1
    cases hl : (formatInt v).data.getLast? with
    | none => simp [hl] at h1
    | some x =>
      simp [hl] at h1
      subst h1
      exact formatInt_no_slash v (List.mem_of_getLast?_eq_some hl)

/-- C13 as stated fails: a path that begins with a slash gives an endpoint with
a double slash. -/
theorem Call_endpoint_with_double_slash :
    hasDoubleSlash
      (callState (testClient 1) "2015-10-21T07:28:00Z" "/unit/test" "[]" "POST").endpoint := by
  unfold hasDoubleSlash
  decide

/-- C13, amended: the endpoint holds a double slash exactly when the path
begins with a slash or holds a double slash itself; for every other path and
every version it holds none. -/
theorem Call_endpoint_double_slash (c : restclient) (now path js m : String) :
    hasDoubleSlash (callState c now path js m).endpoint ↔
      (path.data.head? = some '/' ∨ hasDoubleSlash path) := by
  rw [(callState_work c now path js m).2.2.1]
  unfold hasDoubleSlash
  rw [String.data_append]
  constructor
  · intro h
    rcases doubleSlash_append _ _ h with h1 | h1 | ⟨-, h1⟩
    · exact absurd h1 (endpoint_head_no_doubleSlash _)
    · exact Or.inr h1
    · exact Or.inl h1
  · rintro (h | h)
    · cases hp : path.data with
      | nil => simp [hp] at h
      | cons x rest =>
        simp only [hp, List.head?_cons, Option.some.injEq] at h
        subst h
        refine ⟨("/api/v" ++ formatInt c.apiVersion).data, rest, ?_⟩
        simp [String.data_append]
    · exact h.trans (List.suffix_append _ _).isInfix

/-- C14: when `json.Marshal` fails on the parameters, `Call` returns a nil
result with that error and nothing else happens: no request is built or
handed to the transport. -/
theorem Call_marshal_error {P : Type} (E : Env P) (c : restclient) (path : String)
    (params : P) (ms : List String) (err : GoError) (hm : E.marshal params = .error err) :
    (Call E c path params ms).issued = [] ∧
    (Call E c path params ms).outcome = .returned .nil (some err) := by
  simp [Call, hm]

/-- A channel as parameters: the call returns the error of `json.Marshal` and
issues no request. -/
theorem Call_marshal_error_witness :
    (Call chanEnv (testClient 1) "unit/test" () []).issued = [] ∧
    (Call chanEnv (testClient 1) "unit/test" () []).outcome =
      .returned .nil (some (errorsNew "json: unsupported type: chan int")) :=
  Call_marshal_error chanEnv (testClient 1) "unit/test" () []
    (errorsNew "json: unsupported type: chan int") rfl

/-- The working copy of a call does not depend on the working fields of the
client it is copied from. -/
theorem callState_sameConfig (c d : restclient) (now path js m : String)
    (h : sameConfig c d) : callState c now path js m = callState d now path js m := by
  obtain ⟨h1, h2, h3, h4, h5⟩ := h
  cases c
  cases d
  simp only at h1 h2 h3 h4 h5
  subst h1 h2 h3 h4 h5
  by_cases hg : m = "GET" <;> simp [callState, hg]

/-- An error returned by `handleResponse` comes with a nil result. -/
theorem handleResponse_error_nil {P : Type} (E : Env P) (this : restclient) (resp : Response)
    (res : GoValue) (err : GoError)
    (h : handleResponse E this resp = .returned res (some err)) : res = .nil := by
  unfold handleResponse at h
  cases hb : resp.readAll with
  | error e =>
    simp only [hb] at h
    injection h with h1 h2
    exact h1.symm
  | ok body =>
    simp only [hb] at h
    by_cases hv : this.apiVersion = 1 ∨ this.apiVersion = 2
    · cases hs : (E.unmarshal body).lookup "succeed" with
      | none =>
        simp [hv, mapIndex, hs] at h
        exact h.1.symm
      | some v =>
        cases v with
        | bool b =>
          cases b with
          | true => simp [hv, mapIndex, hs, assertBool] at h
          | false =>
            cases hm : (E.unmarshal body).lookup "message" with
            | none => simp [hv, mapIndex, hs, assertBool, hm, assertString] at h
            | some w =>
              cases w <;> simp [hv, mapIndex, hs, assertBool, hm, assertString] at h
              exact h.1.symm
        | _ => simp [hv, mapIndex, hs, assertBool] at h
    · by_cases h3 : this.apiVersion = 3
      · cases hi : (E.unmarshal body).lookup "items" with
        | none =>
          simp [hv, h3, mapIndex, hi] at h
          exact h.1.symm
        | some v => simp [hv, h3, mapIndex, hi] at h
      · simp [hv, h3] at h
        exact h.1.symm

/-- C15 as stated fails: with the empty string as the method argument the
request goes out with the method `GET`, not with the argument unchanged. -/
theorem Call_empty_method_sent_as_GET :
    callMethod [""] = "" ∧
    (Call (testEnv "\x7b\x7d" []) (testClient 1) "unit/test" ["var1", "var2"]
      [""]).issued.map Request.method = ["GET"] := by
  decide

/-- C15, amended: without a method argument the method is `POST`; with method
arguments the first one is the method of the call and the others are ignored;
the method of the call is the first field of the signed string unchanged, and
it is the method of the request unless it is empty, in which case the request
is a `GET`. -/
theorem Call_method {P : Type} (E : Env P) (c : restclient) (path : String) (params : P)
    (ms : List String) (r : Request) (h : r ∈ (Call E c path params ms).issued) :
    (ms = [] → callMethod ms = "POST") ∧
    (∀ (m : String) (rest : List String), ms = m :: rest → callMethod ms = m) ∧
    r.method = (if callMethod ms = "" then "GET" else callMethod ms) ∧
    r.header.Get "Authorization" = c.apiRealm ++ " " ++ formatInt c.apiUser ++ ":" ++
      (sign c (canonicalString (callMethod ms) (r.header.Get "Content-MD5") "application/json"
        (r.header.Get "Date") r.body ("/api/v" ++ formatInt c.apiVersion ++ "/" ++ path))).1 := by
  obtain ⟨js, -, hc, -⟩ := Call_issued E c path params ms r h
  obtain ⟨hmeth, -, -, -⟩ := createRequest_ok E _ _ r hc
  obtain ⟨-, -, -, -, -, -, -, ha⟩ := Call_request E c path params ms r h
  refine ⟨fun h0 => ?_, fun m rest h0 => ?_, hmeth, ha⟩
  · subst h0; rfl
  · subst h0; rfl

/-- The call of `TestCallFail`, without a method argument, is a `POST`, and a
call with the arguments `GET` and `PUT` is a `GET`. -/
theorem Call_method_witness :
    (testRequest 1 "POST" "[\"var1\",\"var2\"]").method = "POST" ∧
    callMethod ["GET", "PUT"] = "GET" :=
  ⟨((Call_method (testEnv "" []) (testClient 1) "unit/test" ["var1", "var2"] []
      (testRequest 1 "POST" "[\"var1\",\"var2\"]") (testRequest_issued "" [] 1)).2.2.1).trans
      (by decide),
    rfl⟩

/-- C16: a call does not depend on the working fields of the client: two
clients with the same configuration give the same requests and the same
outcome, and the working copy that any call makes of a client has the
configuration of that client. -/
theorem Call_depends_on_config_only {P : Type} (E : Env P) (c d : restclient) (path : String)
    (params : P) (ms : List String) (h : sameConfig c d) :
    Call E c path params ms = Call E d path params ms ∧
    ∀ now path2 js m : String, sameConfig d (callState c now path2 js m) := by
  constructor
  · unfold Call
    cases E.marshal params with
    | error err => rfl
    | ok js => simp only [callState_sameConfig c d E.now path js (callMethod ms) h]
  · intro now path2 js m
    obtain ⟨h1, h2, h3, h4, h5⟩ := h
    obtain ⟨f1, f2, f3, f4, f5⟩ := callState_fixed c now path2 js m
    exact ⟨h1.symm.trans f1.symm, h2.symm.trans f2.symm, h3.symm.trans f3.symm,
      h4.symm.trans f4.symm, h5.symm.trans f5.symm⟩

/-- The call of `TestCallFail` on the client as constructed and on the working
copy that an earlier `GET` call on another path made of it. -/
theorem Call_depends_on_config_only_witness :
    Call (testEnv "\x7b\x7d" []) (callState (testClient 1) "2015-10-20T00:00:00Z" "other" "[]"
      "GET") "unit/test" ["var1", "var2"] [] =
    Call (testEnv "\x7b\x7d" []) (testClient 1) "unit/test" ["var1", "var2"] [] :=
  (Call_depends_on_config_only (testEnv "\x7b\x7d" [])
    (callState (testClient 1) "2015-10-20T00:00:00Z" "other" "[]" "GET") (testClient 1)
    "unit/test" ["var1", "var2"] [] (by unfold sameConfig; decide)).1

/-- C17 as stated fails: a call whose parameters do not serialize issues no
request. -/
theorem Call_without_request :
    (Call chanEnv (testClient 1) "unit/test" () []).issued.length = 0 := by
  decide

/-- C17, amended: a call issues at most one request; it issues exactly one
when the parameters serialize and the request can be built, and none
otherwise. -/
theorem Call_at_most_one_request {P : Type} (E : Env P) (c : restclient) (path : String)
    (params : P) (ms : List String) :
    (Call E c path params ms).issued.length ≤ 1 ∧
    ((Call E c path params ms).issued.length = 1 ↔
      ∃ js r, E.marshal params = .ok js ∧
        createRequest E (callState c E.now path js (callMethod ms)) (callMethod ms) = .ok r) ∧
    ((Call E c path params ms).issued = [] ↔
      (∃ err, E.marshal params = .error err) ∨
      ∃ js err, E.marshal params = .ok js ∧
        createRequest E (callState c E.now path js (callMethod ms)) (callMethod ms) =
          .error err) := by
  unfold Call
  cases hm : E.marshal params with
  | error err => simp
  | ok js =>
    cases hc : createRequest E (callState c E.now path js (callMethod ms)) (callMethod ms) with
    | error err => simp [hc]
    | ok r => cases hd : E.roundTrip r <;> simp [hc, hd]

/-- C19: whenever `handleResponse` or `Call` returns a non-nil error, the
result it returns with it is nil. -/
theorem error_with_nil_result {P : Type} (E : Env P) (c : restclient) (path : String)
    (params : P) (ms : List String) (res : GoValue) (err : GoError)
    (h : (Call E c path params ms).outcome = .returned res (some err)) :
    res = .nil ∧
    ∀ (this : restclient) (resp : Response) (res2 : GoValue) (err2 : GoError),
      handleResponse E this resp = .returned res2 (some err2) → res2 = .nil := by
  refine ⟨?_, fun this resp res2 err2 h2 => handleResponse_error_nil E this resp res2 err2 h2⟩
  unfold Call at h
  cases hm : E.marshal params with
  | error e =>
    simp only [hm] at h
    injection h with h1 h2
    exact h1.symm
  | ok js =>
    simp only [hm] at h
    cases hc : createRequest E (callState c E.now path js (callMethod ms)) (callMethod ms) with
    | error e =>
      simp only [hc] at h
      injection h with h1 h2
      exact h1.symm
    | ok r =>
      simp only [hc] at h
      cases hd : E.roundTrip r with
      | error e =>
        simp only [hd] at h
        injection h with h1 h2
        exact h1.symm
      | ok resp =>
        simp only [hd] at h
        exact handleResponse_error_nil E _ resp res err h

/-- The call of `TestCallFail` returns an error, and its result is nil. -/
theorem error_with_nil_result_witness :
    (Call (testEnv "\x7b\"succeed\":false,\"message\":\"unit test fail\"\x7d"
      [("succeed", .bool false), ("message", .string "unit test fail")])
      (testClient 1) "unit/test" ["var1", "var2"] []).outcome =
      .returned .nil (some (errorsNew "/api/v1/unit/test: unit test fail")) ∧
    GoValue.nil = GoValue.nil := by
  have ho : (Call (testEnv "\x7b\"succeed\":false,\"message\":\"unit test fail\"\x7d"
      [("succeed", .bool false), ("message", .string "unit test fail")])
      (testClient 1) "unit/test" ["var1", "var2"] []).outcome =
      .returned .nil (some (errorsNew "/api/v1/unit/test: unit test fail")) := by
    obtain ⟨js, ho⟩ := Call_outcome
      (testEnv "\x7b\"succeed\":false,\"message\":\"unit test fail\"\x7d"
        [("succeed", .bool false), ("message", .string "unit test fail")])
      (testClient 1) "unit/test" ["var1", "var2"] [] _
      ⟨.ok "\x7b\"succeed\":false,\"message\":\"unit test fail\"\x7d"⟩
      (testRequest_issued _ _ 1) rfl
    rw [ho]
    rfl
  exact ⟨ho, (error_with_nil_result _ (testClient 1) "unit/test" ["var1", "var2"] [] .nil
    (errorsNew "/api/v1/unit/test: unit test fail") ho).1⟩

/-! ## The claims on the digits and on the string to sign -/

theorem getD_mem_of_default_mem {α : Type} (l : List α) (i : Nat) (d : α) (hd : d ∈ l) :
    l.getD i d ∈ l := by
  rw [List.getD_eq_getElem?_getD]
  cases h : l[i]? with
  | none => simpa using hd
  | some x => simpa using List.getElem?_mem h

theorem hexByte_mem (b : Nat) : ∀ ch ∈ hexByte b, ch ∈ hextable := by
  intro ch hch
  simp only [hexByte, List.mem_cons, List.mem_singleton, List.not_mem_nil, or_false] at hch
  rcases hch with h | h <;> rw [h] <;> exact getD_mem_of_default_mem _ _ _ (by decide)

theorem hexEncodeToString_length (bytes : List Nat) :
    (hexEncodeToString bytes).length = 2 * bytes.length := by
  unfold hexEncodeToString
  rw [String.length]
  induction bytes with
  | nil => rfl
  | cons b bs ih =>
    simp only [List.flatMap_cons, List.length_append, ih, List.length_cons]
    simp only [hexByte, List.length_cons, List.length_nil]
    omega

theorem hexEncodeToString_isLowerHex (bytes : List Nat) :
    isLowerHex (hexEncodeToString bytes) := by
  intro ch hch
  simp only [hexEncodeToString, List.mem_flatMap] at hch
  obtain ⟨b, -, hb⟩ := hch
  exact hexByte_mem b ch hb

theorem md5Sum_length (msg : List Nat) : (md5Sum msg).length = 16 := by
  simp [md5Sum, leBytes32]

theorem sha256Round_length (w st : List Nat) (i : Nat) (h : st.length = 8) :
    (sha256Round w st i).length = 8 := by
  unfold sha256Round
  split
  · rfl
  · exact h

theorem sha256Rounds_length (w : List Nat) (is : List Nat) :
    ∀ st : List Nat, st.length = 8 → (is.foldl (sha256Round w) st).length = 8 := by
  induction is with
  | nil => intro st h; exact h
  | cons i is ih => intro st h; exact ih _ (sha256Round_length w st i h)

theorem sha256Block_length (st block : List Nat) (h : st.length = 8) :
    (sha256Block st block).length = 8 := by
  simp [sha256Block, List.length_zipWith, h, sha256Rounds_length _ _ st h]

theorem sha256Blocks_length (n : Nat) : ∀ (st bytes : List Nat), st.length = 8 →
    (foldBlocks sha256Block n st bytes).length = 8 := by
  induction n with
  | zero => intro st bytes h; exact h
  | succ n ih => intro st bytes h; exact ih _ _ (sha256Block_length st _ h)

theorem beBytes32_flatMap_length (l : List Nat) : (l.flatMap beBytes32).length = 4 * l.length := by
  induction l with
  | nil => rfl
  | cons x xs ih =>
    simp only [List.flatMap_cons, List.length_append, ih, List.length_cons]
    simp only [beBytes32, List.length_cons, List.length_nil]
    omega

theorem sha256Sum_length (msg : List Nat) : (sha256Sum msg).length = 32 := by
  simp only [sha256Sum, beBytes32_flatMap_length]
  rw [sha256Blocks_length _ _ _ (by rfl)]

theorem hmacSHA256_length (key msg : List Nat) : (hmacSHA256 key msg).length = 32 := by
  simp only [hmacSHA256]
  exact sha256Sum_length _

/-- C18: the content digest that `Call` computes has 32 characters and the
signature that `sign` returns has 64, all of them among `0`-`9` and `a`-`f`. -/
theorem digest_and_signature_hex (c : restclient) (now path js m s : String) :
    (callState c now path js m).hashstr.length = 32 ∧
    isLowerHex (callState c now path js m).hashstr ∧
    (sign c s).1.length = 64 ∧
    isLowerHex (sign c s).1 ∧
    hextable = ['0', '1', '2', '3', '4', '5', '6', '7', '8', '9', 'a', 'b', 'c', 'd', 'e', 'f'] := by
  rw [(callState_work c now path js m).2.1]
  refine ⟨?_, hexEncodeToString_isLowerHex _, ?_, hexEncodeToString_isLowerHex _, by decide⟩
  · rw [hexEncodeToString_length, md5Sum_length]
  · simp only [sign]
    rw [hexEncodeToString_length, hmacSHA256_length]

/-- Splitting at the first newline is unambiguous. -/
theorem newline_split (a : List Char) : ∀ (a2 r r2 : List Char), '\n' ∉ a → '\n' ∉ a2 →
    a ++ '\n' :: r = a2 ++ '\n' :: r2 → a = a2 ∧ r = r2 := by
  induction a with
  | nil =>
    intro a2 r r2 _ h2 h
    cases a2 with
    | nil => simpa using h
    | cons x xs =>
      simp only [List.nil_append, List.cons_append, List.cons.injEq] at h
      exact absurd (h.1 ▸ List.mem_cons_self _ _) h2
  | cons y ys ih =>
    intro a2 r r2 h1 h2 h
    cases a2 with
    | nil =>
      simp only [List.nil_append, List.cons_append, List.cons.injEq] at h
      exact absurd (h.1 ▸ List.mem_cons_self _ _) h1
    | cons x xs =>
      simp only [List.cons_append, List.cons.injEq] at h
      obtain ⟨e1, e2⟩ := ih xs r r2 (fun hm => h1 (List.mem_cons_of_mem _ hm))
        (fun hm => h2 (List.mem_cons_of_mem _ hm)) h.2
      exact ⟨by rw [h.1, e1], e2⟩

theorem canonicalString_data (m d ct t b e : String) :
    (canonicalString m d ct t b e).data =
      m.data ++ '\n' :: (d.data ++ '\n' :: (ct.data ++ '\n' :: (t.data ++ '\n' ::
        (b.data ++ '\n' :: e.data)))) := by
  have hn : ("\n" : String).data = ['\n'] := rfl
  simp [canonicalString, String.data_append, hn]

/-- C20: the string to sign determines its six fields when none of the first
five holds a newline: two such tuples with the same canonical string are
equal field by field; the endpoint, the last field, may hold newlines. The
string that `createRequest` signs is the canonical string of the method, the
digest, `application/json`, the timestamp, the body and the endpoint. -/
theorem canonicalString_injective (m d ct t b e m2 d2 ct2 t2 b2 e2 : String)
    (hm : '\n' ∉ m.data ∧ '\n' ∉ m2.data) (hd : '\n' ∉ d.data ∧ '\n' ∉ d2.data)
    (hct : '\n' ∉ ct.data ∧ '\n' ∉ ct2.data) (ht : '\n' ∉ t.data ∧ '\n' ∉ t2.data)
    (hb : '\n' ∉ b.data ∧ '\n' ∉ b2.data)
    (h : canonicalString m d ct t b e = canonicalString m2 d2 ct2 t2 b2 e2) :
    (m = m2 ∧ d = d2 ∧ ct = ct2 ∧ t = t2 ∧ b = b2 ∧ e = e2) ∧
    ∀ (this : restclient) (method : String), signString this method =
      canonicalString method this.hashstr "application/json" this.timestr this.bodystr
        this.endpoint := by
  refine ⟨?_, fun this method => rfl⟩
  have h0 := congrArg String.data h
  rw [canonicalString_data, canonicalString_data] at h0
  obtain ⟨e1, h1⟩ := newline_split _ _ _ _ hm.1 hm.2 h0
  obtain ⟨e2, h2⟩ := newline_split _ _ _ _ hd.1 hd.2 h1
  obtain ⟨e3, h3⟩ := newline_split _ _ _ _ hct.1 hct.2 h2
  obtain ⟨e4, h4⟩ := newline_split _ _ _ _ ht.1 ht.2 h3
  obtain ⟨e5, e6⟩ := newline_split _ _ _ _ hb.1 hb.2 h4
  exact ⟨String.ext e1, String.ext e2, String.ext e3, String.ext e4, String.ext e5,
    String.ext e6⟩

/-- The fields of `TestSignature`: the tuple with the method `PUT` is signed
over another string than the tuple with the method `POST`, and so is the tuple
with the body moved into the endpoint by a newline. -/
theorem canonicalString_injective_witness :
    canonicalString "POST" "cdefd9b4ca40e984f3482ed3c7ae077a" "application/json"
        "Wed, 21 Oct 2015 07:28:00 GMT" "[\"var1\",\"var2\"]" "/api/v1/unit/test" ≠
      canonicalString "PUT" "cdefd9b4ca40e984f3482ed3c7ae077a" "application/json"
        "Wed, 21 Oct 2015 07:28:00 GMT" "[\"var1\",\"var2\"]" "/api/v1/unit/test" ∧
    canonicalString "POST" "cdefd9b4ca40e984f3482ed3c7ae077a" "application/json"
        "Wed, 21 Oct 2015 07:28:00 GMT" "[\"var1\",\"var2\"]" "/api/v1/unit/test" ≠
      canonicalString "POST" "cdefd9b4ca40e984f3482ed3c7ae077a" "application/json"
        "Wed, 21 Oct 2015 07:28:00 GMT" "" "[\"var1\",\"var2\"]\n/api/v1/unit/test" :=
  ⟨fun h => absurd (canonicalString_injective "POST" "cdefd9b4ca40e984f3482ed3c7ae077a"
      "application/json" "Wed, 21 Oct 2015 07:28:00 GMT" "[\"var1\",\"var2\"]"
      "/api/v1/unit/test" "PUT" "cdefd9b4ca40e984f3482ed3c7ae077a" "application/json"
      "Wed, 21 Oct 2015 07:28:00 GMT" "[\"var1\",\"var2\"]" "/api/v1/unit/test"
      (by decide) (by decide) (by decide) (by decide) (by decide) h).1.1 (by decide),
    fun h => absurd (canonicalString_injective "POST" "cdefd9b4ca40e984f3482ed3c7ae077a"
      "application/json" "Wed, 21 Oct 2015 07:28:00 GMT" "[\"var1\",\"var2\"]"
      "/api/v1/unit/test" "POST" "cdefd9b4ca40e984f3482ed3c7ae077a" "application/json"
      "Wed, 21 Oct 2015 07:28:00 GMT" "" "[\"var1\",\"var2\"]\n/api/v1/unit/test"
      (by decide) (by decide) (by decide) (by decide) (by decide) h).1.2.2.2.2.1 (by decide)⟩

end RestClient
